import Mathlib

/-!
Verification of the TradingView → Angel One webhook middleware
(`src/middleware.py`) against its specification.

The Python module is embedded shallowly:

* `AngelOneTrader` instance state becomes the `TraderState` structure
  (the credential fields `api_key`, `username`, `password`, `totp_key`
  never influence the modelled control flow — every brokerage response
  is supplied by the environment — so they are omitted).
* The external brokerage SDK (`SmartConnect`, `generateSession`,
  `placeOrder`) is modelled by environment values: `LoginEnv` describes
  how the login attempt goes (which call raises, or the response dict),
  `PlaceOrderResp` describes the order-placement response.
* Python truthiness of the relevant values is modelled explicitly
  (`None` and `""` are falsy strings; `None` and `0` are falsy numbers).
* Python dictionaries become association lists / structures with
  `Option` fields (a missing key reads as `none`; indexing a missing
  key raises, which the embedding routes to the enclosing `except`
  branch exactly as in the source).
-/

namespace Middleware

/-- Python truthiness of an optional string: `None` and `""` are falsy. -/
def pyStrFalsy : Option String → Bool
  | none => true
  | some s => s.isEmpty

/-- Python's `str.upper()` on the ASCII alphabet (all strings the claims
involve are ASCII), written over the character list so it reduces in the
kernel. -/
def pyUpper (s : String) : String := String.mk (s.data.map Char.toUpper)

/-- Python truthiness of an optional integer: `None` and `0` are falsy. -/
def pyIntTruthy : Option Int → Bool
  | none => false
  | some n => n != 0

/-- The mutable state of the `AngelOneTrader` instance:
the SDK client handle (`self.smart_api`, identified by a numeric id;
a constructed client object is always truthy), the three session token
fields, and the trading configuration set in `__init__`
(`default_quantity = 1`, `product_type = "MIS"`, `order_type = "MARKET"`). -/
structure TraderState where
  smart_api : Option Nat
  auth_token : Option String
  refresh_token : Option String
  feed_token : Option String
  default_quantity : Nat
  product_type : String
  order_type : String
deriving Repr, DecidableEq

/-- The state right after `AngelOneTrader.__init__`. -/
def initialTraderState : TraderState :=
  { smart_api := none
    auth_token := none
    refresh_token := none
    feed_token := none
    default_quantity := 1
    product_type := "MIS"
    order_type := "MARKET" }

/-- The `data['data']` sub-dictionary of a `generateSession` response:
each token key may be missing (indexing a missing key raises `KeyError`). -/
structure SessionData where
  jwtToken : Option String
  refreshToken : Option String
  feedToken : Option String
deriving Repr, DecidableEq

/-- Environment for one `login` attempt, describing how the external calls
inside the `try` block of `AngelOneTrader.login` behave:

* `connectExn` — `SmartConnect(api_key=...)` raises; `self.smart_api`
  is not assigned.
* `totpExn cid` — the client was constructed (id `cid`) but TOTP
  generation raises; `generateSession` is never reached.
* `sessionExn cid` — the client was constructed but `generateSession`
  (or the `data['status']` access) raises: a transport/parse failure.
* `response cid status d` — `generateSession` returned a dict with the
  given truthiness of `data['status']` and sub-dict `data['data']`. -/
inductive LoginEnv where
  | connectExn
  | totpExn (cid : Nat)
  | sessionExn (cid : Nat)
  | response (cid : Nat) (status : Bool) (d : SessionData)
deriving Repr, DecidableEq

/-- Result of one `login` call: the returned boolean, the trader state after
the call, and whether the brokerage session-creation endpoint
(`generateSession`) was actually invoked. -/
structure LoginResult where
  ok : Bool
  state : TraderState
  generateSessionCalled : Bool
deriving Repr, DecidableEq

/-- `AngelOneTrader.login` (src/middleware.py lines 35-58).
Assignments in the source happen in order; an exception (modelled by the
environment or by a missing dict key) aborts the remaining assignments and
the `except` handler returns `False`. -/
def login (s : TraderState) (env : LoginEnv) : LoginResult :=
  match env with
  | .connectExn => ⟨false, s, false⟩
  | .totpExn cid => ⟨false, { s with smart_api := some cid }, false⟩
  | .sessionExn cid => ⟨false, { s with smart_api := some cid }, true⟩
  | .response cid status d =>
    let s1 := { s with smart_api := some cid }
    if status then
      match d.jwtToken with
      | none => ⟨false, s1, true⟩
      | some jwt =>
        match d.refreshToken with
        | none => ⟨false, { s1 with auth_token := some jwt }, true⟩
        | some r =>
          match d.feedToken with
          | none =>
            ⟨false, { s1 with auth_token := some jwt, refresh_token := some r }, true⟩
          | some f =>
            ⟨true,
              { s1 with
                  auth_token := some jwt
                  refresh_token := some r
                  feed_token := some f },
              true⟩
    else ⟨false, s1, true⟩

/-- A login environment in which the brokerage reports success but the
response is missing at least one of the three token keys, so extracting
the tokens raises `KeyError` part-way through the assignments. -/
def malformedSuccess : LoginEnv → Bool
  | .response _ true d =>
    d.jwtToken.isNone || d.refreshToken.isNone || d.feedToken.isNone
  | _ => false

/-- The static symbol table of `get_symbol_token` (lines 65-77). -/
def symbol_map : List (String × String) :=
  [("NIFTY", "99926000"),
   ("BANKNIFTY", "99926009"),
   ("RELIANCE", "2885"),
   ("TCS", "11536"),
   ("INFY", "1594"),
   ("HDFCBANK", "1333"),
   ("ICICIBANK", "4963"),
   ("SBIN", "3045"),
   ("ITC", "424"),
   ("HINDUNILVR", "356")]

/-- The body of the `try` block of `get_symbol_token`: `symbol.upper()`
raises `AttributeError` when `symbol` is `None` (modelled input `none`);
otherwise `symbol_map.get(symbol.upper())` is a plain table lookup. -/
def get_symbol_token_attempt (symbol : Option String) : Except String (Option String) :=
  match symbol with
  | none => .error "AttributeError: NoneType has no attribute upper"
  | some s => .ok (symbol_map.lookup (pyUpper s))

/-- `AngelOneTrader.get_symbol_token` (lines 60-83): the `except` handler
catches every exception from the body and returns `None`. -/
def get_symbol_token (symbol : Option String) : Option String :=
  match get_symbol_token_attempt symbol with
  | .ok v => v
  | .error _ => none

/-- The static `signal_quantities` table of `get_quantity_for_signal`
(lines 212-221). -/
def signal_quantities : List (String × Nat) :=
  [("G_BOX", 1),
   ("R_BOX", 1),
   ("2G_BOX", 2),
   ("2R_BOX", 2),
   ("1G_BOX", 1),
   ("1R_BOX", 1),
   ("2GR_BOX", 1),
   ("2RG_BOX", 1)]

/-- `get_quantity_for_signal` (lines 209-223): `dict.get(signal, 1)`.
`None` is hashable, so an absent signal simply misses the table and
yields the default 1. -/
def get_quantity_for_signal (signal : Option String) : Nat :=
  match signal with
  | none => 1
  | some s => (signal_quantities.lookup s).getD 1

/-- The order-parameter dictionary built at lines 105-119.  `price = none`
means the `"price"` key is absent from the dict. -/
structure OrderParams where
  variety : String
  tradingsymbol : String
  symboltoken : String
  transactiontype : String
  exchange : String
  ordertype : String
  producttype : String
  duration : String
  quantity : String
  price : Option String
deriving Repr, DecidableEq

/-- The dictionary `place_order` returns (an `OrderOutcome`):
`status`, `message`, and the optional `order_id` key. -/
structure OrderOutcome where
  status : Bool
  message : String
  order_id : Option String
deriving Repr, DecidableEq

/-- Environment for the `self.smart_api.placeOrder(order_params)` call
(line 122):

* `exn msg` — the call raises; `str(e)` is `msg`.
* `falsy` — the call returns a falsy value (e.g. `None`).
* `resp status orderid` — a truthy response dict with the given truthiness
  of `response.get('status')` and the `['data']['orderid']` value
  (`none` = the key is missing, so extracting it raises `KeyError`). -/
inductive PlaceOrderResp where
  | exn (msg : String)
  | falsy
  | resp (status : Bool) (orderid : Option String)
deriving Repr, DecidableEq

/-- Result of one `place_order` call: returned outcome, trader state after
the call, the order-parameter dict if one was built (`none` = the code
returned before line 105), and flags recording which collaborators were
invoked: `self.login()`, the brokerage session-creation endpoint,
`self.get_symbol_token(...)`, and the brokerage order endpoint
`self.smart_api.placeOrder(...)`. -/
structure PlaceResult where
  outcome : OrderOutcome
  state : TraderState
  payload : Option OrderParams
  loginCalled : Bool
  generateSessionCalled : Bool
  resolveCalled : Bool
  placeOrderCalled : Bool
deriving Repr, DecidableEq

/-- The guard at line 88: `not self.smart_api or not self.auth_token`.
A constructed SDK client is always truthy; the token string is falsy when
`None` or empty. -/
def needLogin (s : TraderState) : Bool :=
  s.smart_api.isNone || pyStrFalsy s.auth_token

/-- Lines 124-134: turn the `placeOrder` response into the returned
outcome dict.  The diagnostic text interpolated from the raw response
(`f"Order failed: {order_response}"`) is abstracted to a fixed rendering
per response shape; the claims constrain only the literal messages. -/
def submit_outcome (oresp : PlaceOrderResp) (transaction_type : String)
    (qty : Nat) (symbol : String) : OrderOutcome :=
  match oresp with
  | .exn msg => ⟨false, "Error: " ++ msg, none⟩
  | .falsy => ⟨false, "Order failed: None", none⟩
  | .resp status orderid =>
    if status then
      match orderid with
      | some oid =>
        ⟨true, "Order placed: " ++ transaction_type ++ " " ++ toString qty
                  ++ " " ++ symbol, some oid⟩
      | none => ⟨false, "Error: KeyError", none⟩
    else ⟨false, "Order failed: response with falsy status", none⟩

/-- Lines 92-134 of `place_order`: everything after the session guard,
executed with trader state `s` (already updated by `login` when the guard
fired).  `loginCalled`/`genCalled` record what the guard did. -/
def place_order_body (s : TraderState) (symbol action : String)
    (quantity : Option Nat) (price : Option Int) (oresp : PlaceOrderResp)
    (loginCalled genCalled : Bool) : PlaceResult :=
  match get_symbol_token (some symbol) with
  | none =>
    ⟨⟨false, "Symbol token not found for " ++ symbol, none⟩, s, none,
      loginCalled, genCalled, true, false⟩
  | some tok =>
    if tok.isEmpty then
      -- `if not symbol_token:` also fires on an empty-string token
      ⟨⟨false, "Symbol token not found for " ++ symbol, none⟩, s, none,
        loginCalled, genCalled, true, false⟩
    else
      -- line 98: `if not quantity:` replaces None and 0 by the default
      let qty : Nat :=
        match quantity with
        | none => s.default_quantity
        | some 0 => s.default_quantity
        | some n => n
      -- line 102
      let transaction_type := if pyUpper action == "BUY" then "BUY" else "SELL"
      -- lines 105-119
      let order_params : OrderParams :=
        { variety := "NORMAL"
          tradingsymbol := symbol
          symboltoken := tok
          transactiontype := transaction_type
          exchange := "NSE"
          ordertype := s.order_type
          producttype := s.product_type
          duration := "DAY"
          quantity := toString qty
          price :=
            if s.order_type == "LIMIT" && pyIntTruthy price then
              some (toString (price.getD 0))
            else none }
      ⟨submit_outcome oresp transaction_type qty symbol, s, some order_params,
        loginCalled, genCalled, true, true⟩

/-- `AngelOneTrader.place_order` (lines 85-138). -/
def place_order (s : TraderState) (symbol action : String)
    (quantity : Option Nat) (price : Option Int)
    (lenv : LoginEnv) (oresp : PlaceOrderResp) : PlaceResult :=
  if needLogin s then
    let lr := login s lenv
    if lr.ok then
      place_order_body lr.state symbol action quantity price oresp true
        lr.generateSessionCalled
    else
      ⟨⟨false, "Login failed", none⟩, lr.state, none, true,
        lr.generateSessionCalled, false, false⟩
  else
    place_order_body s symbol action quantity price oresp false false

/-- The JSON body of a `/webhook` POST, as read by `data.get(...)`
(lines 170-174).  Fields are modelled as optional strings / integers;
`data.get('symbol', 'NIFTY')` supplies the default. -/
structure WebhookData where
  action : Option String
  symbol : Option String
  signal : Option String
  price : Option Int
  message : Option String
deriving Repr, DecidableEq

/-- Behaviour of `request.get_json()` at line 162:

* `raises msg` — the call raises (unparsable body / unsupported media
  type); the exception is caught by the handler-wide `except` at line 205.
* `returns none` — the call returns a falsy value (no data / body parsed
  to `null` or an empty object), taking the line 164 branch.
* `returns (some d)` — a parsed, truthy body. -/
inductive GetJsonResult where
  | raises (msg : String)
  | returns (d : Option WebhookData)
deriving Repr, DecidableEq

/-- The handler's response plus the visible effects: HTTP status code,
JSON `status`/`message` fields, the echoed quantity, the optional
`order_id`, the trader state afterwards, and whether the dispatcher
(`trader.place_order`) was invoked. -/
structure WebhookResult where
  code : Nat
  status : String
  message : Option String
  quantity : Option Nat
  order_id : Option String
  state : TraderState
  dispatcherCalled : Bool
deriving Repr, DecidableEq

/-- The `/webhook` handler (lines 157-207).  `s` is the state of the
module-level `trader`; `lenv`/`oresp` supply the brokerage behaviour for
the dispatched `place_order` call. -/
def webhook (s : TraderState) (body : GetJsonResult)
    (lenv : LoginEnv) (oresp : PlaceOrderResp) : WebhookResult :=
  match body with
  | .raises msg => ⟨500, "error", some msg, none, none, s, false⟩
  | .returns none =>
    ⟨400, "error", some "No data received", none, none, s, false⟩
  | .returns (some d) =>
    -- line 177: `if not action or action not in ['BUY', 'SELL']`
    -- (an absent or empty action is also not in the list)
    if d.action == some "BUY" || d.action == some "SELL" then
      let quantity := get_quantity_for_signal d.signal
      let symbol := d.symbol.getD "NIFTY"
      let act := (d.action.getD "")
      let r := place_order s symbol act (some quantity) d.price lenv oresp
      ⟨if r.outcome.status then 200 else 400,
        if r.outcome.status then "success" else "error",
        some r.outcome.message, some quantity, r.outcome.order_id,
        r.state, true⟩
    else ⟨400, "error", some "Invalid action", none, none, s, false⟩

/-! ## Helper lemmas -/

/-- `get_symbol_token` on a string input is just the table lookup of the
upper-cased symbol. -/
lemma get_symbol_token_some (s : String) :
    get_symbol_token (some s) = symbol_map.lookup (pyUpper s) := rfl

/-- `login` may change the SDK client handle and the session tokens, but
never the trading configuration fields. -/
lemma login_preserves_config (s : TraderState) (lenv : LoginEnv) :
    (login s lenv).state.order_type = s.order_type ∧
    (login s lenv).state.product_type = s.product_type ∧
    (login s lenv).state.default_quantity = s.default_quantity := by
  cases lenv with
  | connectExn => exact ⟨rfl, rfl, rfl⟩
  | totpExn cid => exact ⟨rfl, rfl, rfl⟩
  | sessionExn cid => exact ⟨rfl, rfl, rfl⟩
  | response cid status d =>
    cases status <;> cases hj : d.jwtToken <;> cases hr : d.refreshToken <;>
      cases hf : d.feedToken <;> simp [login, hj, hr, hf]

/-- Shape of the payload built by `place_order_body`: whenever a payload
is produced, each field is determined by the inputs as at lines 105-119. -/
lemma place_order_body_payload (s : TraderState) (symbol action : String)
    (quantity : Option Nat) (price : Option Int) (oresp : PlaceOrderResp)
    (lc gc : Bool) (P : OrderParams)
    (h : (place_order_body s symbol action quantity price oresp lc gc).payload
          = some P) :
    P.variety = "NORMAL" ∧
    P.tradingsymbol = symbol ∧
    P.transactiontype = (if pyUpper action == "BUY" then "BUY" else "SELL") ∧
    P.exchange = "NSE" ∧
    P.ordertype = s.order_type ∧
    P.producttype = s.product_type ∧
    P.duration = "DAY" ∧
    P.price = (if s.order_type == "LIMIT" && pyIntTruthy price then
                 some (toString (price.getD 0))
               else none) := by
  unfold place_order_body at h
  cases hm : get_symbol_token (some symbol) with
  | none => rw [hm] at h; simp at h
  | some tok =>
    rw [hm] at h
    by_cases he : tok.isEmpty <;> simp [he] at h
    simp [← h]

/-- Shape of the payload built by `place_order`: the configuration fields
come from the entry state (login never changes them), the other fields
from the call's arguments. -/
lemma place_order_payload (s : TraderState) (symbol action : String)
    (quantity : Option Nat) (price : Option Int) (lenv : LoginEnv)
    (oresp : PlaceOrderResp) (P : OrderParams)
    (h : (place_order s symbol action quantity price lenv oresp).payload
          = some P) :
    P.transactiontype = (if pyUpper action == "BUY" then "BUY" else "SELL") ∧
    P.ordertype = s.order_type ∧
    P.price = (if s.order_type == "LIMIT" && pyIntTruthy price then
                 some (toString (price.getD 0))
               else none) := by
  unfold place_order at h
  by_cases hn : needLogin s
  · rw [if_pos hn] at h
    by_cases hok : (login s lenv).ok
    · rw [if_pos hok] at h
      have hc := login_preserves_config s lenv
      have hb := place_order_body_payload (login s lenv).state symbol action
        quantity price oresp true (login s lenv).generateSessionCalled P h
      exact ⟨hb.2.2.1, by rw [hb.2.2.2.2.1, hc.1],
        by rw [hb.2.2.2.2.2.2.2, hc.1]⟩
    · rw [if_neg hok] at h
      simp at h
  · rw [if_neg hn] at h
    have hb := place_order_body_payload s symbol action quantity price oresp
      false false P h
    exact ⟨hb.2.2.1, hb.2.2.2.2.1, hb.2.2.2.2.2.2.2⟩

/-- `place_order_body` never mutates the trader state and reports the
guard flags it was given; it always records the symbol-resolution call. -/
lemma place_order_body_effects (s : TraderState) (symbol action : String)
    (quantity : Option Nat) (price : Option Int) (oresp : PlaceOrderResp)
    (lc gc : Bool) :
    (place_order_body s symbol action quantity price oresp lc gc).state = s ∧
    (place_order_body s symbol action quantity price oresp lc gc).loginCalled = lc ∧
    (place_order_body s symbol action quantity price oresp lc gc).generateSessionCalled = gc ∧
    (place_order_body s symbol action quantity price oresp lc gc).resolveCalled = true := by
  refine ⟨?_, ?_, ?_, ?_⟩ <;>
    (unfold place_order_body; (repeat' split) <;> rfl)

/-- `place_order_body` submits to the brokerage exactly when the resolved
token is truthy. -/
lemma place_order_body_submits (s : TraderState) (symbol action : String)
    (quantity : Option Nat) (price : Option Int) (oresp : PlaceOrderResp)
    (lc gc : Bool) :
    (place_order_body s symbol action quantity price oresp lc gc).placeOrderCalled
      = !(pyStrFalsy (get_symbol_token (some symbol))) ∧
    (place_order_body s symbol action quantity price oresp lc gc).payload.isSome
      = !(pyStrFalsy (get_symbol_token (some symbol))) := by
  unfold place_order_body
  cases h : get_symbol_token (some symbol) with
  | none => simp [pyStrFalsy]
  | some tok =>
    by_cases he : tok.isEmpty <;> simp [pyStrFalsy, he]

/-- When the resolved token is falsy, `place_order_body` reports the
resolution failure without submitting. -/
lemma place_order_body_no_token (s : TraderState) (symbol action : String)
    (quantity : Option Nat) (price : Option Int) (oresp : PlaceOrderResp)
    (lc gc : Bool)
    (h : pyStrFalsy (get_symbol_token (some symbol)) = true) :
    (place_order_body s symbol action quantity price oresp lc gc).outcome
      = ⟨false, "Symbol token not found for " ++ symbol, none⟩ := by
  unfold place_order_body
  cases hm : get_symbol_token (some symbol) with
  | none => rfl
  | some tok =>
    rw [hm] at h
    simp only [pyStrFalsy] at h
    simp [h]

/-- A state that passes the session guard has a client handle and a
non-null token. -/
lemma needLogin_false_session (s : TraderState) (h : needLogin s = false) :
    s.smart_api.isSome = true ∧ s.auth_token.isSome = true := by
  cases hsa : s.smart_api <;> cases hat : s.auth_token <;>
    simp_all [needLogin, pyStrFalsy]

/-- A successful login leaves a client handle and a non-null token in the
state. -/
lemma login_ok_session (s : TraderState) (lenv : LoginEnv)
    (h : (login s lenv).ok = true) :
    (login s lenv).state.smart_api.isSome = true ∧
    (login s lenv).state.auth_token.isSome = true := by
  cases lenv with
  | connectExn => simp [login] at h
  | totpExn cid => simp [login] at h
  | sessionExn cid => simp [login] at h
  | response cid status d =>
    cases status <;> cases hj : d.jwtToken <;> cases hr : d.refreshToken <;>
      cases hf : d.feedToken <;> simp_all [login, hj, hr, hf]

/-! ## Claim theorems -/

/-- C5: `get_quantity_for_signal` is a total pure function: it returns 2
for the signals `2G_BOX` and `2R_BOX`, and 1 for every other signal string
(including the table entries `G_BOX`, `R_BOX`, `1G_BOX`, `1R_BOX`,
`2GR_BOX`, `2RG_BOX`) as well as for an absent signal; it never fails. -/
theorem quantity_for_signal_table (sig : Option String) :
    get_quantity_for_signal sig =
      if sig = some "2G_BOX" ∨ sig = some "2R_BOX" then 2 else 1 := by
  match sig with
  | none => simp [get_quantity_for_signal]
  | some s =>
    simp only [get_quantity_for_signal, signal_quantities, List.lookup]
    repeat' split <;> simp_all

/-- C6: for every string in the resolver table, `get_symbol_token` returns
the documented token for any letter-casing of the input (the lookup key is
the upper-cased input), e.g. any casing of RELIANCE resolves to "2885";
every input whose upper-casing is not a table key resolves to absent. -/
theorem symbol_resolution_table (s : String) :
    (pyUpper s = "NIFTY" → get_symbol_token (some s) = some "99926000") ∧
    (pyUpper s = "BANKNIFTY" → get_symbol_token (some s) = some "99926009") ∧
    (pyUpper s = "RELIANCE" → get_symbol_token (some s) = some "2885") ∧
    (pyUpper s = "TCS" → get_symbol_token (some s) = some "11536") ∧
    (pyUpper s = "INFY" → get_symbol_token (some s) = some "1594") ∧
    (pyUpper s = "HDFCBANK" → get_symbol_token (some s) = some "1333") ∧
    (pyUpper s = "ICICIBANK" → get_symbol_token (some s) = some "4963") ∧
    (pyUpper s = "SBIN" → get_symbol_token (some s) = some "3045") ∧
    (pyUpper s = "ITC" → get_symbol_token (some s) = some "424") ∧
    (pyUpper s = "HINDUNILVR" → get_symbol_token (some s) = some "356") ∧
    (pyUpper s ∉ symbol_map.map Prod.fst →
      get_symbol_token (some s) = none) := by
  refine ⟨?k1, ?k2, ?k3, ?k4, ?k5, ?k6, ?k7, ?k8, ?k9, ?k10, ?miss⟩
  case miss =>
    intro h
    simp only [symbol_map, List.map, List.mem_cons, List.not_mem_nil] at h
    push_neg at h
    simp only [get_symbol_token, get_symbol_token_attempt, symbol_map,
      List.lookup]
    repeat' split <;> simp_all
  all_goals intro h; rw [get_symbol_token_some, h]; decide

/-- C6 witness: a lower-case spelling of a table symbol resolves to its
token, and an unknown symbol resolves to absent. -/
theorem symbol_resolution_table_witness :
    get_symbol_token (some "reliance") = some "2885" ∧
    get_symbol_token (some "UNKNOWNSYM") = none :=
  ⟨(symbol_resolution_table "reliance").2.2.1 (by decide),
    (symbol_resolution_table
        "UNKNOWNSYM").2.2.2.2.2.2.2.2.2.2 (by decide)⟩

/-- C9: symbol resolution is total at the public interface: on the `None`
input, where `symbol.upper()` raises, the exception is caught and the
function returns absent; more generally every raising run of the body is
converted to the absent result. -/
theorem get_symbol_token_total :
    get_symbol_token none = none ∧
    (∀ (x : Option String) (e : String),
      get_symbol_token_attempt x = .error e → get_symbol_token x = none) := by
  constructor
  · rfl
  · intro x e h
    simp [get_symbol_token, h]

/-- C9 witness: the `None` input, whose body raises `AttributeError`,
yields absent. -/
theorem get_symbol_token_total_witness :
    get_symbol_token none = none ∧
    get_symbol_token_attempt none =
      .error "AttributeError: NoneType has no attribute upper" :=
  ⟨get_symbol_token_total.2 none
      "AttributeError: NoneType has no attribute upper" rfl, rfl⟩

/-- C3 counterexample: the claim "after any login attempt that returns
false, all three session token fields are null" fails on the code.  From a
state holding tokens of an earlier successful login, a re-login attempt
that gets a status-false response returns false but leaves the stale
tokens in place — `login` never clears the fields on failure. -/
theorem login_failure_keeps_stale_tokens :
    (login ⟨some 1, some "A", some "R", some "F", 1, "MIS", "MARKET"⟩
        (.response 2 false ⟨none, none, none⟩)).ok = false ∧
    (login ⟨some 1, some "A", some "R", some "F", 1, "MIS", "MARKET"⟩
        (.response 2 false ⟨none, none, none⟩)).state.auth_token = some "A" ∧
    ¬ (login ⟨some 1, some "A", some "R", some "F", 1, "MIS", "MARKET"⟩
        (.response 2 false ⟨none, none, none⟩)).state.auth_token = none := by
  decide

/-- C3 (amended): a login attempt that returns false leaves the session
token fields unchanged — in particular, starting from the logged-out state
they remain null — unless the brokerage reported success with a response
missing a token key, in which case exactly the fields before the missing
key are updated (`feed_token` is never set by a failed login); a
successful login sets all three fields. -/
theorem login_token_update (s : TraderState) (lenv : LoginEnv) :
    ((login s lenv).ok = true →
      (login s lenv).state.auth_token.isSome = true ∧
      (login s lenv).state.refresh_token.isSome = true ∧
      (login s lenv).state.feed_token.isSome = true) ∧
    ((login s lenv).ok = false → malformedSuccess lenv = false →
      (login s lenv).state.auth_token = s.auth_token ∧
      (login s lenv).state.refresh_token = s.refresh_token ∧
      (login s lenv).state.feed_token = s.feed_token) ∧
    ((login s lenv).ok = false →
      (login s lenv).state.feed_token = s.feed_token) := by
  cases lenv with
  | connectExn => simp [login, malformedSuccess]
  | totpExn cid => simp [login, malformedSuccess]
  | sessionExn cid => simp [login, malformedSuccess]
  | response cid status d =>
    cases status <;> cases hj : d.jwtToken <;> cases hr : d.refreshToken <;>
      cases hf : d.feedToken <;> simp [login, malformedSuccess, hj, hr, hf]

/-- C3 witness: from the logged-out state, a failed (status-false) login
leaves all three token fields null, and a fully successful login sets all
three. -/
theorem login_token_update_witness :
    ((login initialTraderState (.response 1 false ⟨none, none, none⟩)).state.auth_token = none ∧
      (login initialTraderState (.response 1 false ⟨none, none, none⟩)).state.refresh_token = none ∧
      (login initialTraderState (.response 1 false ⟨none, none, none⟩)).state.feed_token = none) ∧
    ((login initialTraderState
        (.response 1 true ⟨some "J", some "R", some "F"⟩)).state.auth_token.isSome = true ∧
      (login initialTraderState
        (.response 1 true ⟨some "J", some "R", some "F"⟩)).state.refresh_token.isSome = true ∧
      (login initialTraderState
        (.response 1 true ⟨some "J", some "R", some "F"⟩)).state.feed_token.isSome = true) := by
  constructor
  · have h := (login_token_update initialTraderState
      (.response 1 false ⟨none, none, none⟩)).2.1 (by decide) (by decide)
    simpa [initialTraderState] using h
  · exact (login_token_update initialTraderState
      (.response 1 true ⟨some "J", some "R", some "F"⟩)).1 (by decide)

/-- C10: a `place_order` call made while the session guard is satisfied
(the SDK client is initialized and the session token is truthy, i.e. the
code's own notion of "a session is present") leaves the trader state —
all three token fields and the client handle — unchanged, whatever the
outcome; only `login` mutates session state. -/
theorem place_order_frame (s : TraderState) (symbol action : String)
    (quantity : Option Nat) (price : Option Int) (lenv : LoginEnv)
    (oresp : PlaceOrderResp) (h : needLogin s = false) :
    (place_order s symbol action quantity price lenv oresp).state = s := by
  unfold place_order
  simp only [h, Bool.false_eq_true, if_false]
  exact (place_order_body_effects s symbol action quantity price oresp
    false false).1

/-- C10 witness: a live session state is returned unchanged by a failing
order placement. -/
theorem place_order_frame_witness :
    needLogin ⟨some 1, some "A", some "R", some "F", 1, "MIS", "MARKET"⟩
        = false ∧
    (place_order ⟨some 1, some "A", some "R", some "F", 1, "MIS", "MARKET"⟩
        "RELIANCE" "SELL" none none .connectExn .falsy).state
      = ⟨some 1, some "A", some "R", some "F", 1, "MIS", "MARKET"⟩ :=
  ⟨by decide,
    place_order_frame ⟨some 1, some "A", some "R", some "F", 1, "MIS", "MARKET"⟩
      "RELIANCE" "SELL" none none .connectExn .falsy (by decide)⟩

/-- C8 counterexample: the claim "whenever the session token is non-null
and the SDK client is initialized, `place_order` never invokes the
brokerage session-creation endpoint" fails on the code: the guard tests
Python truthiness, so a non-null but empty token (`auth_token = ""`)
still triggers `login` and a `generateSession` call. -/
theorem empty_token_triggers_login :
    (⟨some 1, some "", some "R", some "F", 1, "MIS", "MARKET"⟩
        : TraderState).auth_token ≠ none ∧
    (⟨some 1, some "", some "R", some "F", 1, "MIS", "MARKET"⟩
        : TraderState).smart_api.isSome = true ∧
    (place_order ⟨some 1, some "", some "R", some "F", 1, "MIS", "MARKET"⟩
        "RELIANCE" "BUY" none none (.response 2 false ⟨none, none, none⟩)
        .falsy).loginCalled = true ∧
    (place_order ⟨some 1, some "", some "R", some "F", 1, "MIS", "MARKET"⟩
        "RELIANCE" "BUY" none none (.response 2 false ⟨none, none, none⟩)
        .falsy).generateSessionCalled = true := by
  decide

/-- C8 (amended): whenever the SDK client is initialized and the session
token is non-null and non-empty, `place_order` neither calls `login` nor
the brokerage session-creation endpoint: it proceeds directly to order
handling without re-login. -/
theorem no_relogin_when_session_present (s : TraderState)
    (symbol action : String) (quantity : Option Nat) (price : Option Int)
    (lenv : LoginEnv) (oresp : PlaceOrderResp)
    (h1 : s.smart_api.isSome = true) (h2 : s.auth_token ≠ none)
    (h3 : s.auth_token ≠ some "") :
    (place_order s symbol action quantity price lenv oresp).loginCalled
        = false ∧
    (place_order s symbol action quantity price lenv oresp).generateSessionCalled
        = false := by
  have hn : needLogin s = false := by
    obtain ⟨v, hv⟩ := Option.isSome_iff_exists.mp h1
    cases hat : s.auth_token with
    | none => exact absurd hat h2
    | some a =>
      have ha : a ≠ "" := fun e => h3 (by rw [hat, e])
      cases hb : a.isEmpty with
      | true => exact absurd ((String.isEmpty_iff a).mp hb) ha
      | false => simp [needLogin, hv, hat, pyStrFalsy, hb]
  unfold place_order
  simp only [hn, Bool.false_eq_true, if_false]
  exact ⟨(place_order_body_effects s symbol action quantity price oresp
      false false).2.1,
    (place_order_body_effects s symbol action quantity price oresp
      false false).2.2.1⟩

/-- C8 witness: with a live, non-empty session, a `place_order` run does
not call `login` or `generateSession`. -/
theorem no_relogin_when_session_present_witness :
    (⟨some 1, some "A", some "R", some "F", 1, "MIS", "MARKET"⟩
        : TraderState).auth_token ≠ none ∧
    (place_order ⟨some 1, some "A", some "R", some "F", 1, "MIS", "MARKET"⟩
        "RELIANCE" "BUY" none none (.response 2 false ⟨none, none, none⟩)
        (.resp true (some "OID1"))).loginCalled = false ∧
    (place_order ⟨some 1, some "A", some "R", some "F", 1, "MIS", "MARKET"⟩
        "RELIANCE" "BUY" none none (.response 2 false ⟨none, none, none⟩)
        (.resp true (some "OID1"))).generateSessionCalled = false := by
  refine ⟨by decide, ?_⟩
  exact no_relogin_when_session_present
    ⟨some 1, some "A", some "R", some "F", 1, "MIS", "MARKET"⟩
    "RELIANCE" "BUY" none none (.response 2 false ⟨none, none, none⟩)
    (.resp true (some "OID1")) (by decide) (by decide) (by decide)

/-- C4: with the MARKET order type (the default configuration), a payload
built by `place_order` never contains a price field, whatever the inputs —
including calls that supply a price; with the LIMIT order type and a
supplied (positive, per the data model) price, the payload's price field
is the supplied value converted to a string. -/
theorem payload_price_policy (s : TraderState) (symbol action : String)
    (quantity : Option Nat) (price : Option Int) (lenv : LoginEnv)
    (oresp : PlaceOrderResp) (P : OrderParams)
    (hP : (place_order s symbol action quantity price lenv oresp).payload
          = some P) :
    (s.order_type = "MARKET" → P.price = none) ∧
    (∀ pr : Int, s.order_type = "LIMIT" → price = some pr → 0 < pr →
      P.price = some (toString pr)) := by
  have h := (place_order_payload s symbol action quantity price lenv oresp
    P hP).2.2
  constructor
  · intro hm
    rw [h, hm]
    have hms : ("MARKET" == "LIMIT") = false := by decide
    simp [hms]
  · intro pr hL hpr hpos
    have hne : pr ≠ 0 := hpos.ne'
    rw [h, hL, hpr]
    simp [pyIntTruthy, hne]

/-- C4 witness: a MARKET-configured trader given an explicit price builds
a payload without a price field; a LIMIT-configured trader given price
101 builds a payload whose price field is "101". -/
theorem payload_price_policy_witness :
    ∃ P Q : OrderParams,
      (place_order ⟨some 1, some "A", some "R", some "F", 1, "MIS", "MARKET"⟩
          "TCS" "SELL" (some 3) (some 101) .connectExn .falsy).payload
        = some P ∧
      P.price = none ∧
      (place_order ⟨some 1, some "A", some "R", some "F", 1, "MIS", "LIMIT"⟩
          "TCS" "SELL" (some 3) (some 101) .connectExn .falsy).payload
        = some Q ∧
      Q.price = some (toString (101 : Int)) := by
  have hP : (place_order
      ⟨some 1, some "A", some "R", some "F", 1, "MIS", "MARKET"⟩
      "TCS" "SELL" (some 3) (some 101) .connectExn .falsy).payload
      = some ⟨"NORMAL", "TCS", "11536", "SELL", "NSE", "MARKET", "MIS",
          "DAY", "3", none⟩ := by decide
  have hQ : (place_order
      ⟨some 1, some "A", some "R", some "F", 1, "MIS", "LIMIT"⟩
      "TCS" "SELL" (some 3) (some 101) .connectExn .falsy).payload
      = some ⟨"NORMAL", "TCS", "11536", "SELL", "NSE", "LIMIT", "MIS",
          "DAY", "3", some "101"⟩ := by decide
  refine ⟨_, _, hP, ?_, hQ, ?_⟩
  · exact (payload_price_policy _ "TCS" "SELL" (some 3) (some 101)
      .connectExn .falsy _ hP).1 rfl
  · exact (payload_price_policy _ "TCS" "SELL" (some 3) (some 101)
      .connectExn .falsy _ hQ).2 101 rfl rfl (by decide)

/-- C7: the transaction type in a built payload is "BUY" exactly when the
upper-cased action argument is "BUY", and "SELL" for every other action
string; the coercion is silent — the outcome of such a run is whatever the
brokerage reports, not a validation error (see the witness, where a
coerced run succeeds). -/
theorem transaction_type_coercion (s : TraderState) (symbol action : String)
    (quantity : Option Nat) (price : Option Int) (lenv : LoginEnv)
    (oresp : PlaceOrderResp) (P : OrderParams)
    (hP : (place_order s symbol action quantity price lenv oresp).payload
          = some P) :
    (P.transactiontype = "BUY" ↔ pyUpper action = "BUY") ∧
    (pyUpper action ≠ "BUY" → P.transactiontype = "SELL") := by
  have h := (place_order_payload s symbol action quantity price lenv oresp
    P hP).1
  constructor
  · rw [h]
    by_cases hb : pyUpper action = "BUY" <;> simp [hb]
  · intro hb
    rw [h]
    simp [hb]

/-- C7 witness: the action string "hold" is coerced to a SELL payload and
the order nevertheless completes successfully — no validation error. -/
theorem transaction_type_coercion_witness :
    ∃ P : OrderParams,
      (place_order ⟨some 1, some "A", some "R", some "F", 1, "MIS", "MARKET"⟩
          "RELIANCE" "hold" none none .connectExn
          (.resp true (some "OID7"))).payload = some P ∧
      P.transactiontype = "SELL" ∧
      (place_order ⟨some 1, some "A", some "R", some "F", 1, "MIS", "MARKET"⟩
          "RELIANCE" "hold" none none .connectExn
          (.resp true (some "OID7"))).outcome.status = true := by
  have hP : (place_order
      ⟨some 1, some "A", some "R", some "F", 1, "MIS", "MARKET"⟩
      "RELIANCE" "hold" none none .connectExn
      (.resp true (some "OID7"))).payload
      = some ⟨"NORMAL", "RELIANCE", "2885", "SELL", "NSE", "MARKET", "MIS",
          "DAY", "1", none⟩ := by decide
  exact ⟨_, hP,
    (transaction_type_coercion _ "RELIANCE" "hold" none none .connectExn
      (.resp true (some "OID7")) _ hP).2 (by decide), by decide⟩

/-- C1: `place_order` short-circuits.  If the session guard fires and the
login attempt fails, the call returns the failure outcome "Login failed"
without calling symbol resolution or the brokerage order endpoint; if the
symbol does not resolve to a (truthy) token, the call returns the failure
outcome "Symbol token not found for <symbol>" without calling the order
endpoint; and a payload is built and submitted only when a session is
present (client handle and non-null token) and a token was resolved. -/
theorem place_order_short_circuits (s : TraderState) (symbol action : String)
    (quantity : Option Nat) (price : Option Int) (lenv : LoginEnv)
    (oresp : PlaceOrderResp) (r : PlaceResult)
    (hr : r = place_order s symbol action quantity price lenv oresp) :
    (needLogin s = true → (login s lenv).ok = false →
      r.outcome = ⟨false, "Login failed", none⟩ ∧
      r.resolveCalled = false ∧ r.placeOrderCalled = false) ∧
    (pyStrFalsy (get_symbol_token (some symbol)) = true →
      r.placeOrderCalled = false ∧
      (needLogin s = false ∨ (login s lenv).ok = true →
        r.outcome = ⟨false, "Symbol token not found for " ++ symbol, none⟩)) ∧
    (r.payload.isSome = true →
      r.placeOrderCalled = true ∧
      pyStrFalsy (get_symbol_token (some symbol)) = false ∧
      r.state.smart_api.isSome = true ∧
      r.state.auth_token.isSome = true) := by
  subst hr
  by_cases hn : needLogin s = true
  · by_cases hok : (login s lenv).ok = true
    · have hred : place_order s symbol action quantity price lenv oresp
          = place_order_body (login s lenv).state symbol action quantity
              price oresp true (login s lenv).generateSessionCalled := by
        unfold place_order
        simp [hn, hok]
      rw [hred]
      have he := place_order_body_effects (login s lenv).state symbol action
        quantity price oresp true (login s lenv).generateSessionCalled
      have hs := place_order_body_submits (login s lenv).state symbol action
        quantity price oresp true (login s lenv).generateSessionCalled
      refine ⟨fun _ hf => absurd hok (by rw [hf]; simp), ?_, ?_⟩
      · intro htok
        refine ⟨by rw [hs.1, htok]; rfl, fun _ => ?_⟩
        exact place_order_body_no_token (login s lenv).state symbol action
          quantity price oresp true (login s lenv).generateSessionCalled htok
      · intro hp
        rw [hs.2] at hp
        have htok : pyStrFalsy (get_symbol_token (some symbol)) = false := by
          cases hx : pyStrFalsy (get_symbol_token (some symbol)) <;>
            simp [hx] at hp ⊢
        have hses := login_ok_session s lenv hok
        exact ⟨by rw [hs.1, htok]; rfl, htok, by rw [he.1]; exact hses.1,
          by rw [he.1]; exact hses.2⟩
    · have hred : place_order s symbol action quantity price lenv oresp
          = ⟨⟨false, "Login failed", none⟩, (login s lenv).state, none, true,
              (login s lenv).generateSessionCalled, false, false⟩ := by
        unfold place_order
        simp [hn, hok]
      rw [hred]
      refine ⟨fun _ _ => ⟨rfl, rfl, rfl⟩, fun _ => ⟨rfl, fun hcase => ?_⟩,
        fun hp => by simp at hp⟩
      rcases hcase with hc | hc
      · rw [hn] at hc; exact absurd hc (by simp)
      · exact absurd hc hok
  · have hn' : needLogin s = false := by
      cases hb : needLogin s
      · rfl
      · exact absurd hb hn
    have hred : place_order s symbol action quantity price lenv oresp
        = place_order_body s symbol action quantity price oresp false
            false := by
      unfold place_order
      simp [hn']
    rw [hred]
    have he := place_order_body_effects s symbol action quantity price oresp
      false false
    have hs := place_order_body_submits s symbol action quantity price oresp
      false false
    refine ⟨fun h1 _ => absurd h1 hn, ?_, ?_⟩
    · intro htok
      refine ⟨by rw [hs.1, htok]; rfl, fun _ => ?_⟩
      exact place_order_body_no_token s symbol action quantity price oresp
        false false htok
    · intro hp
      rw [hs.2] at hp
      have htok : pyStrFalsy (get_symbol_token (some symbol)) = false := by
        cases hx : pyStrFalsy (get_symbol_token (some symbol)) <;>
          simp [hx] at hp ⊢
      have hses := needLogin_false_session s hn'
      exact ⟨by rw [hs.1, htok]; rfl, htok, by rw [he.1]; exact hses.1,
        by rw [he.1]; exact hses.2⟩

/-- C1 witness: from the logged-out state with a status-false login
response, `place_order` returns "Login failed" with neither resolution nor
submission; with a live session and an unknown symbol it returns the
resolution failure without submission. -/
theorem place_order_short_circuits_witness :
    ((place_order initialTraderState "RELIANCE" "BUY" none none
        (.response 7 false ⟨none, none, none⟩)
        (.resp true (some "X"))).outcome
      = ⟨false, "Login failed", none⟩ ∧
     (place_order initialTraderState "RELIANCE" "BUY" none none
        (.response 7 false ⟨none, none, none⟩)
        (.resp true (some "X"))).resolveCalled = false ∧
     (place_order initialTraderState "RELIANCE" "BUY" none none
        (.response 7 false ⟨none, none, none⟩)
        (.resp true (some "X"))).placeOrderCalled = false) ∧
    ((place_order ⟨some 1, some "A", some "R", some "F", 1, "MIS", "MARKET"⟩
        "UNKNOWNSYM" "SELL" none none .connectExn .falsy).placeOrderCalled
      = false ∧
     (place_order ⟨some 1, some "A", some "R", some "F", 1, "MIS", "MARKET"⟩
        "UNKNOWNSYM" "SELL" none none .connectExn .falsy).outcome
      = ⟨false, "Symbol token not found for UNKNOWNSYM", none⟩) := by
  constructor
  · exact (place_order_short_circuits initialTraderState "RELIANCE" "BUY"
      none none (.response 7 false ⟨none, none, none⟩)
      (.resp true (some "X")) _ rfl).1 (by decide) (by decide)
  · have h := (place_order_short_circuits
      ⟨some 1, some "A", some "R", some "F", 1, "MIS", "MARKET"⟩
      "UNKNOWNSYM" "SELL" none none .connectExn .falsy _ rfl).2.1
      (by decide)
    exact ⟨h.1, h.2 (Or.inl (by decide))⟩

/-- C2 counterexample: the claim "if the body is missing or unparsable the
response status is 400" fails on the code for unparsable bodies: the
exception raised by `request.get_json()` is caught by the handler-wide
`except`, which returns 500, not 400. -/
theorem webhook_unparsable_body_500 :
    (webhook initialTraderState (.raises "Failed to decode JSON object")
        .connectExn .falsy).code = 500 ∧
    ¬ (webhook initialTraderState (.raises "Failed to decode JSON object")
        .connectExn .falsy).code = 400 := by
  decide

/-- C2 (amended): for every POST to `/webhook`: if the body parses to a
missing/empty value the response is 400; if the body is unparsable, the
parse exception is caught by the blanket handler and the response is 500;
if the action field is absent or not exactly BUY or SELL, the response is
400 with message "Invalid action" and the dispatcher is never invoked;
otherwise the dispatcher is invoked and the response is 200 when it
reports success and 400 when it reports failure. -/
theorem webhook_status_codes (s : TraderState) (body : GetJsonResult)
    (lenv : LoginEnv) (oresp : PlaceOrderResp) (w : WebhookResult)
    (hw : w = webhook s body lenv oresp) :
    (∀ msg, body = .raises msg → w.code = 500 ∧ w.dispatcherCalled = false) ∧
    (body = .returns none →
      w.code = 400 ∧ w.status = "error" ∧ w.dispatcherCalled = false) ∧
    (∀ d, body = .returns (some d) →
      (d.action ≠ some "BUY" → d.action ≠ some "SELL" →
        w.code = 400 ∧ w.message = some "Invalid action" ∧
        w.dispatcherCalled = false) ∧
      ((d.action = some "BUY" ∨ d.action = some "SELL") →
        w.dispatcherCalled = true ∧
        w.code = (if (place_order s (d.symbol.getD "NIFTY")
              (d.action.getD "") (some (get_quantity_for_signal d.signal))
              d.price lenv oresp).outcome.status then 200 else 400))) := by
  subst hw
  refine ⟨?_, ?_, ?_⟩
  · intro msg hb
    subst hb
    exact ⟨rfl, rfl⟩
  · intro hb
    subst hb
    exact ⟨rfl, rfl, rfl⟩
  · intro d hb
    subst hb
    constructor
    · intro h1 h2
      have hcond : (d.action == some "BUY" || d.action == some "SELL")
          = false := by
        simp [h1, h2]
      simp [webhook, hcond]
    · intro hor
      have hcond : (d.action == some "BUY" || d.action == some "SELL")
          = true := by
        rcases hor with h | h <;> simp [h]
      simp [webhook, hcond]

/-- C2 witness: the body with action HOLD is rejected at the boundary with
400 / "Invalid action" and no dispatcher call; a BUY body whose dispatch
succeeds yields 200. -/
theorem webhook_status_codes_witness :
    ((webhook ⟨some 1, some "A", some "R", some "F", 1, "MIS", "MARKET"⟩
        (.returns (some ⟨some "HOLD", none, none, none, none⟩))
        .connectExn .falsy).code = 400 ∧
     (webhook ⟨some 1, some "A", some "R", some "F", 1, "MIS", "MARKET"⟩
        (.returns (some ⟨some "HOLD", none, none, none, none⟩))
        .connectExn .falsy).message = some "Invalid action" ∧
     (webhook ⟨some 1, some "A", some "R", some "F", 1, "MIS", "MARKET"⟩
        (.returns (some ⟨some "HOLD", none, none, none, none⟩))
        .connectExn .falsy).dispatcherCalled = false) ∧
    (webhook ⟨some 1, some "A", some "R", some "F", 1, "MIS", "MARKET"⟩
        (.returns (some ⟨some "BUY", some "RELIANCE", some "2G_BOX", none,
          none⟩))
        .connectExn (.resp true (some "OID9"))).code = 200 := by
  constructor
  · exact ((webhook_status_codes
      ⟨some 1, some "A", some "R", some "F", 1, "MIS", "MARKET"⟩
      (.returns (some ⟨some "HOLD", none, none, none, none⟩))
      .connectExn .falsy _ rfl).2.2
      ⟨some "HOLD", none, none, none, none⟩ rfl).1 (by decide) (by decide)
  · have h := ((webhook_status_codes
      ⟨some 1, some "A", some "R", some "F", 1, "MIS", "MARKET"⟩
      (.returns (some ⟨some "BUY", some "RELIANCE", some "2G_BOX", none,
        none⟩))
      .connectExn (.resp true (some "OID9")) _ rfl).2.2
      ⟨some "BUY", some "RELIANCE", some "2G_BOX", none, none⟩ rfl).2
      (Or.inl rfl)
    rw [h.2]
    decide

end Middleware
